import Mathlib

/-!
Shallow embedding of the cpfuzz dispatch layer.

The repository has three source files:
  * src/src/cpfuzz.c    — the Generation Context: a struct context_t of four
    function-pointer slots (gen_new_line, gen_i64, gen_i64_array, gen_ascii)
    plus an opaque context_state pointer, and one forwarding function per slot.
  * src/src/cpfuzz.cpp  — the Consumption Context: a struct context_t of four
    slots (write_nl, write_i64, write_ascii, rand_i64) plus a context_state
    pointer, forwarding functions, the extern "C" entry point __generate, and
    the derived helper rand_i64_array.
  * src/cpfuzz.h        — declarations plus the templated helper write_i64_seq.

Backend state is opaque (struct context_state_t is never defined), so the
embedding is parametric in a state type σ.  A C slot of type
void (*)(context_state_t*, ...) mutates the state through the pointer; its
state-passing translation is a Lean function σ → ... → σ (or returning a
value paired with the new state).  The Consumption Context slot rand_i64 has C
type i64 (*)(i64, i64): it receives no state pointer at all, so its
translation is a plain function Int → Int → Int.

Besides the value semantics, each forwarding function gets a call-trace
function (suffix _calls) listing the indirect calls its body makes through
the operation table, with the exact argument tuple of each call, read off the
corresponding source line.  Traces let us state *how many* slot calls a
primitive makes, through *which* slot, and *what* it passes — in particular
whether the backend state is passed as the first argument.
-/

/-- Which slot of an operation table an indirect call goes through.
Covers the four Generation slots and the four Consumption slots. -/
inductive SlotName where
  | gen_new_line
  | gen_i64
  | gen_i64_array
  | gen_ascii
  | write_nl
  | write_i64
  | write_ascii
  | rand_i64
deriving DecidableEq, Repr

/-- One argument of an indirect call: the opaque backend state pointer, a
64-bit signed integer, a size_t length, or a char* string/buffer. -/
inductive Arg (σ : Type) where
  | state (s : σ)
  | int (n : Int)
  | nat (n : Nat)
  | str (cs : List Char)
deriving DecidableEq, Repr

/-- A recorded indirect call: the slot it goes through and the argument tuple
passed to it, in order. -/
structure Call (σ : Type) where
  slot : SlotName
  args : List (Arg σ)
deriving DecidableEq, Repr

namespace Gen

/-- The Generation Context of src/src/cpfuzz.c, lines 9–15.  Four
backend-supplied slots and the opaque backend state.  Slots taking a
context_state_t* are embedded in state-passing style. -/
structure context_t (σ : Type) where
  gen_new_line : σ → σ
  gen_i64 : σ → Int → Int → Int × σ
  gen_i64_array : σ → Nat → Int → Int → List Int × σ
  gen_ascii : σ → List Char → List Char × σ
  context_state : σ

variable {σ : Type}

/-- Forwarding function gen_newline, cpfuzz.c lines 18–20:
context->gen_new_line(context->context_state). -/
def gen_newline (context : context_t σ) : context_t σ :=
  { context with context_state := context.gen_new_line context.context_state }

/-- Forwarding function gen_i64, cpfuzz.c lines 22–24:
return context->gen_i64(context->context_state, lower, higher). -/
def gen_i64 (context : context_t σ) (lower higher : Int) : Int × context_t σ :=
  let r := context.gen_i64 context.context_state lower higher
  (r.1, { context with context_state := r.2 })

/-- Forwarding function gen_i64_array, cpfuzz.c lines 26–28:
return context->gen_i64_array(context->context_state, length, lower, higher).
length has C type size_t, embedded as Nat. -/
def gen_i64_array (context : context_t σ) (length : Nat) (lower higher : Int) :
    List Int × context_t σ :=
  let r := context.gen_i64_array context.context_state length lower higher
  (r.1, { context with context_state := r.2 })

/-- Forwarding function gen_ascii, cpfuzz.c lines 30–32:
context->gen_ascii(context->context_state, ascii).  The slot fills the
caller-provided buffer in place; the embedding returns the new buffer
contents together with the new backend state. -/
def gen_ascii (context : context_t σ) (ascii : List Char) : List Char × context_t σ :=
  let r := context.gen_ascii context.context_state ascii
  (r.1, { context with context_state := r.2 })

/-- Test double for a Generation backend: wraps the operation table of ctx so
that each slot appends to the log (carried alongside the state) a record of
its own slot name and the exact argument tuple it received, then delegates to
the corresponding slot of ctx.  Running a forwarding primitive against the
instrumented table therefore reveals exactly which indirect calls the
primitive made and with which arguments. -/
def instrumentFrom (ctx : context_t σ) (s : σ) (log : List (Call σ)) :
    context_t (σ × List (Call σ)) where
  gen_new_line := fun p =>
    (ctx.gen_new_line p.1, p.2 ++ [⟨SlotName.gen_new_line, [Arg.state p.1]⟩])
  gen_i64 := fun p lower higher =>
    let r := ctx.gen_i64 p.1 lower higher
    (r.1, (r.2, p.2 ++ [⟨SlotName.gen_i64, [Arg.state p.1, Arg.int lower, Arg.int higher]⟩]))
  gen_i64_array := fun p length lower higher =>
    let r := ctx.gen_i64_array p.1 length lower higher
    (r.1, (r.2, p.2 ++
      [⟨SlotName.gen_i64_array,
        [Arg.state p.1, Arg.nat length, Arg.int lower, Arg.int higher]⟩]))
  gen_ascii := fun p ascii =>
    let r := ctx.gen_ascii p.1 ascii
    (r.1, (r.2, p.2 ++ [⟨SlotName.gen_ascii, [Arg.state p.1, Arg.str ascii]⟩]))
  context_state := (s, log)

/-- The instrumented context starting from the state of ctx with an empty
log. -/
def instrument (ctx : context_t σ) : context_t (σ × List (Call σ)) :=
  instrumentFrom ctx ctx.context_state []

end Gen

namespace Cons

/-- The Consumption Context of src/src/cpfuzz.cpp, lines 9–15.  The three
write slots take a context_state_t* (embedded state-passing); the rand_i64
slot has C type i64 (*)(i64, i64) — no state parameter — so it is embedded as
a plain function of the two bounds. -/
structure context_t (σ : Type) where
  write_nl : σ → σ
  write_i64 : σ → Int → σ
  write_ascii : σ → List Char → σ
  rand_i64 : Int → Int → Int
  context_state : σ

variable {σ : Type}

/-- Forwarding function write_nl, cpfuzz.cpp lines 23–25:
context->write_nl(context->context_state). -/
def write_nl (context : context_t σ) : context_t σ :=
  { context with context_state := context.write_nl context.context_state }

/-- Forwarding function write_i64, cpfuzz.cpp lines 27–29:
context->write_i64(context->context_state, val). -/
def write_i64 (context : context_t σ) (val : Int) : context_t σ :=
  { context with context_state := context.write_i64 context.context_state val }

/-- Forwarding function write_ascii, cpfuzz.cpp lines 31–33:
context->write_ascii(context->context_state, val). -/
def write_ascii (context : context_t σ) (val : List Char) : context_t σ :=
  { context with context_state := context.write_ascii context.context_state val }

/-- Forwarding function rand_i64, cpfuzz.cpp lines 35–37:
return context->rand_i64(lower, higher).  The slot receives only the two
bounds; the backend state is neither read nor passed, and the context is not
modified. -/
def rand_i64 (context : context_t σ) (lower higher : Int) : Int :=
  context_t.rand_i64 context lower higher

/-- Indirect calls made by rand_i64 (cpfuzz.cpp line 36): one call through the
rand_i64 slot, whose argument tuple is exactly (lower, higher). -/
def rand_i64_calls (_context : context_t σ) (lower higher : Int) : List (Call σ) :=
  [⟨SlotName.rand_i64, [Arg.int lower, Arg.int higher]⟩]

/-- Harness entry point __generate, cpfuzz.cpp lines 19–21:
extern "C" void __generate(context_t *context) { generate(context); }.
The user-supplied function generate is only declared in the repository
(cpfuzz.cpp line 17), so the embedding takes it as a parameter; its
observable behavior is how it transforms the context it is handed. -/
def __generate (generate : context_t σ → context_t σ) (context : context_t σ) :
    context_t σ :=
  generate context

/-- Derived helper rand_i64_array, cpfuzz.cpp lines 39–43.  The C++ body is
std::vector res(length) followed by res[i] = rand_i64(context, lower, higher)
for i = 0 .. length-1.  length has C type i64; the vector constructor
converts it to size_t, so a negative length becomes an allocation request of
2^64 + length elements, which throws (std::length_error / std::bad_alloc) and
aborts the process — embedded as none.  For length ≥ 0 the loop fills index i
with the result of the (i+1)-th rand_i64 call. -/
def rand_i64_array (context : context_t σ) (length lower higher : Int) :
    Option (List Int) :=
  if length < 0 then none
  else some ((List.range length.toNat).map fun _ => rand_i64 context lower higher)

/-- Indirect calls made by rand_i64_array (cpfuzz.cpp line 41): one rand_i64
forwarding call per loop iteration, in index order, each of which is one
indirect call through the rand_i64 slot with arguments (lower, higher). -/
def rand_i64_array_calls (context : context_t σ) (length lower higher : Int) :
    List (Call σ) :=
  if length < 0 then []
  else (List.range length.toNat).flatMap fun _ => rand_i64_calls context lower higher

/-- Derived helper write_i64_seq, src/cpfuzz.h lines 17–20:
while (first != end) write_i64(context, *first), first++;.  The template is
generic over forward iterators; the embedding takes the iterated sequence as
a list of integers. -/
def write_i64_seq (context : context_t σ) : List Int → context_t σ
  | [] => context
  | x :: xs => write_i64_seq (write_i64 context x) xs

/-- Projection of the integer payloads of a recorded call (the non-state,
non-string arguments), used to state that a helper forwards values in input
order. -/
def intPayload (c : Call σ) : List Int :=
  c.args.filterMap fun a =>
    match a with
    | Arg.int n => some n
    | _ => none

/-- Evaluation of one recorded rand_i64 slot call against the table of ctx:
the value the backend produced for that call.  Used to state that the i-th
element of rand_i64_array equals the result of its i-th recorded call. -/
def evalRandCall (ctx : context_t σ) (c : Call σ) : Int :=
  match c.args with
  | [Arg.int lower, Arg.int higher] => ctx.rand_i64 lower higher
  | _ => 0

/-- Test double for a Consumption backend: wraps the operation table of ctx
so that each state-taking slot appends to the log (carried alongside the
state) a record of its own slot name and the exact argument tuple it
received, then delegates to the corresponding slot of ctx.  The rand_i64
slot cannot be instrumented this way: its C type i64 (*)(i64, i64) gives it
no access to the backend state, so it is delegated unchanged. -/
def instrumentFrom (ctx : context_t σ) (s : σ) (log : List (Call σ)) :
    context_t (σ × List (Call σ)) where
  write_nl := fun p =>
    (ctx.write_nl p.1, p.2 ++ [⟨SlotName.write_nl, [Arg.state p.1]⟩])
  write_i64 := fun p val =>
    (ctx.write_i64 p.1 val, p.2 ++ [⟨SlotName.write_i64, [Arg.state p.1, Arg.int val]⟩])
  write_ascii := fun p val =>
    (ctx.write_ascii p.1 val, p.2 ++ [⟨SlotName.write_ascii, [Arg.state p.1, Arg.str val]⟩])
  rand_i64 := ctx.rand_i64
  context_state := (s, log)

/-- The instrumented context starting from the state of ctx with an empty
log. -/
def instrument (ctx : context_t σ) : context_t (σ × List (Call σ)) :=
  instrumentFrom ctx ctx.context_state []

/-- The calls write_i64_seq makes, starting from backend state s, spelled out
recursively: one write_i64 slot call per element in input order, each passing
the state left by the previous one.  Proved below to be exactly the log an
instrumented run produces. -/
def seqTrace (ctx : context_t σ) (s : σ) : List Int → List (Call σ)
  | [] => []
  | x :: xs =>
    ⟨SlotName.write_i64, [Arg.state s, Arg.int x]⟩ :: seqTrace ctx (ctx.write_i64 s x) xs

/-- The log produced by running write_i64_seq against the instrumented table
of ctx. -/
def seqLog (ctx : context_t σ) (l : List Int) : List (Call σ) :=
  (write_i64_seq (instrument ctx) l).context_state.2

end Cons

/-- One operation recorded by an in-memory recording sink: a record
separator, an integer write, or an ASCII-string write. -/
inductive SinkEvent where
  | nl
  | i64 (v : Int)
  | ascii (cs : List Char)
deriving DecidableEq, Repr

/-- A Consumption Context backed by an in-memory recording sink: the backend
state is the list of operations recorded so far, and each write slot appends
its operation.  The rand_i64 slot is an arbitrary stateless source (here the
lower bound). -/
def recordingContext : Cons.context_t (List SinkEvent) where
  write_nl := fun s => s ++ [SinkEvent.nl]
  write_i64 := fun s v => s ++ [SinkEvent.i64 v]
  write_ascii := fun s cs => s ++ [SinkEvent.ascii cs]
  rand_i64 := fun lower _ => lower
  context_state := []

/-- A concrete Consumption Context over integer backend state, parametrized
by the initial state, used to evaluate the embedding at specific inputs. -/
def consFixture (s : Int) : Cons.context_t Int where
  write_nl := fun st => st + 1
  write_i64 := fun st v => st + v
  write_ascii := fun st _ => st
  rand_i64 := fun lower higher => lower + higher
  context_state := s

/-- A concrete Generation Context whose gen_i64 slot satisfies the range
contract (it returns the lower bound). -/
def genLowerFixture : Gen.context_t Unit where
  gen_new_line := fun s => s
  gen_i64 := fun s lower _ => (lower, s)
  gen_i64_array := fun s length lower _ => (List.replicate length lower, s)
  gen_ascii := fun s cs => (cs, s)
  context_state := ()

/-- A concrete Generation Context whose gen_i64 slot violates the range
contract: it returns 0 regardless of the requested bounds. -/
def genZeroFixture : Gen.context_t Unit where
  gen_new_line := fun s => s
  gen_i64 := fun s _ _ => (0, s)
  gen_i64_array := fun s length _ _ => (List.replicate length 0, s)
  gen_ascii := fun s cs => (cs, s)
  context_state := ()

/-- A concrete Consumption Context whose rand_i64 slot satisfies the range
contract (it returns the lower bound). -/
def consLowerFixture : Cons.context_t Unit where
  write_nl := fun s => s
  write_i64 := fun s _ => s
  write_ascii := fun s _ => s
  rand_i64 := fun lower _ => lower
  context_state := ()

namespace Cons

variable {σ : Type}

/-- Stepping lemma: one write_i64 against the instrumented table delegates to
the underlying slot and appends exactly one record of the call. -/
theorem write_i64_instrumentFrom (ctx : context_t σ) (s : σ) (log : List (Call σ))
    (val : Int) :
    write_i64 (instrumentFrom ctx s log) val
      = instrumentFrom ctx (ctx.write_i64 s val)
          (log ++ [⟨SlotName.write_i64, [Arg.state s, Arg.int val]⟩]) :=
  rfl

/-- The log of an instrumented write_i64_seq run starting at state s and log
prefix: the prefix followed by seqTrace. -/
theorem write_i64_seq_instrumentFrom (ctx : context_t σ) :
    ∀ (l : List Int) (s : σ) (log : List (Call σ)),
      (write_i64_seq (instrumentFrom ctx s log) l).context_state.2
        = log ++ seqTrace ctx s l := by
  intro l
  induction l with
  | nil => intro s log; simp [write_i64_seq, instrumentFrom, seqTrace]
  | cons x xs ih =>
    intro s log
    rw [write_i64_seq, write_i64_instrumentFrom, ih, seqTrace]
    simp

/-- seqTrace has one entry per input element. -/
theorem seqTrace_length (ctx : context_t σ) :
    ∀ (l : List Int) (s : σ), (seqTrace ctx s l).length = l.length := by
  intro l
  induction l with
  | nil => intro s; rfl
  | cons x xs ih => intro s; simp [seqTrace, ih]

/-- Every seqTrace entry goes through the write_i64 slot. -/
theorem seqTrace_map_slot (ctx : context_t σ) :
    ∀ (l : List Int) (s : σ),
      (seqTrace ctx s l).map Call.slot = List.replicate l.length SlotName.write_i64 := by
  intro l
  induction l with
  | nil => intro s; rfl
  | cons x xs ih => intro s; simp [seqTrace, List.replicate, ih]

/-- The integer payloads of seqTrace are the input elements in input order. -/
theorem seqTrace_map_payload (ctx : context_t σ) :
    ∀ (l : List Int) (s : σ),
      (seqTrace ctx s l).map intPayload = l.map fun v => [v] := by
  intro l
  induction l with
  | nil => intro s; rfl
  | cons x xs ih => intro s; simp [seqTrace, intPayload, ih]

/-- Flattening one singleton list per element of any list yields one entry
per element. -/
theorem flatMap_const_singleton {α β : Type} (c : β) :
    ∀ l : List α, (l.flatMap fun _ => [c]) = List.replicate l.length c := by
  intro l
  induction l with
  | nil => rfl
  | cons x xs ih => simp [List.flatMap_cons, ih, List.replicate_succ]

/-- Mapping a constant function over any list yields that many copies of the
constant. -/
theorem map_const_replicate {α β : Type} (c : β) :
    ∀ l : List α, (l.map fun _ => c) = List.replicate l.length c := by
  intro l
  induction l with
  | nil => rfl
  | cons x xs ih => simp [List.replicate_succ, ih]

end Cons

/-- C1 counterexample: the claim asserts that every forwarding primitive —
rand_i64 included — passes the backend state pointer as the first argument of
its indirect call.  At the concrete Consumption Context consFixture 7 (whose
backend state is 7) and arguments (5, 10), the single indirect call rand_i64
makes through its slot (cpfuzz.cpp line 36) carries the argument tuple
(5, 10): its argument list is not (state, 5, 10) as the claim requires —
the slot type i64 (*)(i64, i64) has no state parameter at all. -/
theorem c1_rand_i64_state_counterexample :
    Cons.rand_i64_calls (consFixture 7) 5 10
      = [⟨SlotName.rand_i64, [Arg.int 5, Arg.int 10]⟩] ∧
    (Cons.rand_i64_calls (consFixture 7) 5 10).map Call.args
      ≠ [[Arg.state (7 : Int), Arg.int 5, Arg.int 10]] :=
  ⟨rfl, by decide⟩

/-- C1 (amended): each of the eight forwarding primitives is translated into
exactly one indirect call through its own slot of the operation table; the
seven primitives whose slot takes a context_state_t* (gen_newline, gen_i64,
gen_i64_array, gen_ascii, write_nl, write_i64, write_ascii) pass the handle's
backend state as the first argument, followed by the caller's arguments
unchanged; rand_i64 also makes exactly one indirect call through its slot,
but that slot receives only (lower, higher) — no backend state is passed.
The instrumented logs establish this for any backend table. -/
theorem c1_forwarding_single_indirect_call {σ₁ σ₂ : Type} (gctx : Gen.context_t σ₁)
    (cctx : Cons.context_t σ₂) (length : Nat) (lower higher val : Int)
    (buf ascii : List Char) :
    (Gen.gen_newline (Gen.instrument gctx)).context_state.2
      = [⟨SlotName.gen_new_line, [Arg.state gctx.context_state]⟩] ∧
    ((Gen.gen_i64 (Gen.instrument gctx) lower higher).2).context_state.2
      = [⟨SlotName.gen_i64, [Arg.state gctx.context_state, Arg.int lower, Arg.int higher]⟩] ∧
    ((Gen.gen_i64_array (Gen.instrument gctx) length lower higher).2).context_state.2
      = [⟨SlotName.gen_i64_array,
          [Arg.state gctx.context_state, Arg.nat length, Arg.int lower, Arg.int higher]⟩] ∧
    ((Gen.gen_ascii (Gen.instrument gctx) buf).2).context_state.2
      = [⟨SlotName.gen_ascii, [Arg.state gctx.context_state, Arg.str buf]⟩] ∧
    (Cons.write_nl (Cons.instrument cctx)).context_state.2
      = [⟨SlotName.write_nl, [Arg.state cctx.context_state]⟩] ∧
    (Cons.write_i64 (Cons.instrument cctx) val).context_state.2
      = [⟨SlotName.write_i64, [Arg.state cctx.context_state, Arg.int val]⟩] ∧
    (Cons.write_ascii (Cons.instrument cctx) ascii).context_state.2
      = [⟨SlotName.write_ascii, [Arg.state cctx.context_state, Arg.str ascii]⟩] ∧
    Cons.rand_i64 cctx lower higher = cctx.rand_i64 lower higher ∧
    Cons.rand_i64_calls cctx lower higher
      = [⟨SlotName.rand_i64, [Arg.int lower, Arg.int higher]⟩] :=
  ⟨rfl, rfl, rfl, rfl, rfl, rfl, rfl, rfl, rfl⟩

/-- C2: the value-returning forwarding primitives gen_i64, gen_i64_array and
rand_i64 return exactly the value the backend slot produced, for every
context handle and every argument pair — no clamping, narrowing or retry.
The final conjunct shows there is no caching across calls: two successive
gen_i64 calls each trigger a fresh indirect slot call (the instrumented log
has two entries, the second receiving the state evolved by the first). -/
theorem c2_values_returned_verbatim {σ₁ σ₂ : Type} (gctx : Gen.context_t σ₁)
    (cctx : Cons.context_t σ₂) (length : Nat) (a b lower higher : Int) :
    (Gen.gen_i64 gctx lower higher).1
      = (gctx.gen_i64 gctx.context_state lower higher).1 ∧
    (Gen.gen_i64_array gctx length lower higher).1
      = (gctx.gen_i64_array gctx.context_state length lower higher).1 ∧
    Cons.rand_i64 cctx lower higher = cctx.rand_i64 lower higher ∧
    ((Gen.gen_i64 ((Gen.gen_i64 (Gen.instrument gctx) a b).2) lower higher).2).context_state.2
      = [⟨SlotName.gen_i64, [Arg.state gctx.context_state, Arg.int a, Arg.int b]⟩,
         ⟨SlotName.gen_i64,
          [Arg.state (gctx.gen_i64 gctx.context_state a b).2,
           Arg.int lower, Arg.int higher]⟩] :=
  ⟨rfl, rfl, rfl, rfl⟩

/-- C3 counterexample: the claim asserts that for lo ≤ hi the value returned
by gen_i64 always lies in [lo, hi], for every context handle.  The forwarding
layer returns whatever the backend slot produces, so a backend that violates
the range contract refutes the claim: at genZeroFixture (whose gen_i64 slot
returns 0) and range (5, 10), the returned value 0 is outside [5, 10]. -/
theorem c3_range_counterexample :
    ¬ (5 ≤ (Gen.gen_i64 genZeroFixture 5 10).1 ∧ (Gen.gen_i64 genZeroFixture 5 10).1 ≤ 10) := by
  decide

/-- C3 (amended): for all ranges lo ≤ hi, if the backend table satisfies the
range contract of the spec — its gen_i64 slot (respectively rand_i64 slot)
returns a value within every well-formed requested range — then gen_i64 and
rand_i64 return a value v with lo ≤ v ≤ hi.  The boundary cases lo = hi,
lo = hi = 0 and the int64 extremes are instances of the quantifiers. -/
theorem c3_range_under_backend_contract {σ₁ σ₂ : Type} (gctx : Gen.context_t σ₁)
    (cctx : Cons.context_t σ₂) (lo hi : Int) (hle : lo ≤ hi)
    (hgen : ∀ s lower higher, lower ≤ higher →
      lower ≤ (gctx.gen_i64 s lower higher).1 ∧ (gctx.gen_i64 s lower higher).1 ≤ higher)
    (hrand : ∀ lower higher, lower ≤ higher →
      lower ≤ cctx.rand_i64 lower higher ∧ cctx.rand_i64 lower higher ≤ higher) :
    (lo ≤ (Gen.gen_i64 gctx lo hi).1 ∧ (Gen.gen_i64 gctx lo hi).1 ≤ hi) ∧
    (lo ≤ Cons.rand_i64 cctx lo hi ∧ Cons.rand_i64 cctx lo hi ≤ hi) :=
  ⟨hgen gctx.context_state lo hi hle, hrand lo hi hle⟩

/-- Witness for C3: at range (5, 10) with contract-satisfying backends
(both slots return the lower bound), the returned values lie in [5, 10]. -/
theorem c3_range_witness :
    ((5 : Int) ≤ 10) ∧
    ((5 ≤ (Gen.gen_i64 genLowerFixture 5 10).1 ∧ (Gen.gen_i64 genLowerFixture 5 10).1 ≤ 10) ∧
     (5 ≤ Cons.rand_i64 consLowerFixture 5 10 ∧ Cons.rand_i64 consLowerFixture 5 10 ≤ 10)) :=
  ⟨by decide,
   c3_range_under_backend_contract genLowerFixture consLowerFixture 5 10 (by decide)
     (fun _ lower _ hlh => ⟨le_refl lower, hlh⟩)
     (fun lower _ hlh => ⟨le_refl lower, hlh⟩)⟩

/-- C4: for every non-negative length n, rand_i64_array returns exactly n
elements, built by exactly n rand_i64 slot calls in index order 0..n-1, each
with arguments (lower, higher); the element at index i is the value the i-th
recorded call produces (third conjunct); n = 0 gives the empty sequence and
an empty call list (the replicate of 0). -/
theorem c4_rand_i64_array_shape {σ : Type} (ctx : Cons.context_t σ)
    (length lower higher : Int) (h : 0 ≤ length) :
    Cons.rand_i64_array ctx length lower higher
      = some (List.replicate length.toNat (Cons.rand_i64 ctx lower higher)) ∧
    Cons.rand_i64_array_calls ctx length lower higher
      = List.replicate length.toNat ⟨SlotName.rand_i64, [Arg.int lower, Arg.int higher]⟩ ∧
    (Cons.rand_i64_array ctx length lower higher).getD []
      = (Cons.rand_i64_array_calls ctx length lower higher).map (Cons.evalRandCall ctx) := by
  have hn : ¬ length < 0 := not_lt.mpr h
  refine ⟨?_, ?_, ?_⟩
  · unfold Cons.rand_i64_array
    rw [if_neg hn, Cons.map_const_replicate, List.length_range]
  · unfold Cons.rand_i64_array_calls
    rw [if_neg hn]
    simp only [Cons.rand_i64_calls]
    rw [Cons.flatMap_const_singleton, List.length_range]
  · unfold Cons.rand_i64_array Cons.rand_i64_array_calls
    rw [if_neg hn, if_neg hn]
    simp only [Cons.rand_i64_calls]
    rw [Cons.map_const_replicate, Cons.flatMap_const_singleton, List.length_range,
      Option.getD_some, List.map_replicate]
    rfl

/-- Witness for C4 at length 2 and range (3, 9) over a concrete context. -/
theorem c4_rand_i64_array_witness :
    ((0 : Int) ≤ 2) ∧
    (Cons.rand_i64_array (consFixture 1) 2 3 9
       = some (List.replicate (2 : Int).toNat (Cons.rand_i64 (consFixture 1) 3 9)) ∧
     Cons.rand_i64_array_calls (consFixture 1) 2 3 9
       = List.replicate (2 : Int).toNat ⟨SlotName.rand_i64, [Arg.int 3, Arg.int 9]⟩ ∧
     (Cons.rand_i64_array (consFixture 1) 2 3 9).getD []
       = (Cons.rand_i64_array_calls (consFixture 1) 2 3 9).map
           (Cons.evalRandCall (consFixture 1))) :=
  ⟨by decide, c4_rand_i64_array_shape (consFixture 1) 2 3 9 (by decide)⟩

/-- C5: over any sequence of length k, write_i64_seq performs exactly k
indirect calls through the write_i64 slot, one per element, with the integer
payloads exactly the input elements in input order; over the empty sequence
it performs zero writes.  Established by running write_i64_seq against the
instrumented table of an arbitrary backend and reading its log. -/
theorem c5_write_i64_seq_writes {σ : Type} (ctx : Cons.context_t σ) (l : List Int) :
    (Cons.seqLog ctx l).length = l.length ∧
    (Cons.seqLog ctx l).map Call.slot = List.replicate l.length SlotName.write_i64 ∧
    (Cons.seqLog ctx l).map Cons.intPayload = l.map (fun v => [v]) ∧
    Cons.seqLog ctx [] = [] := by
  have h : Cons.seqLog ctx l = Cons.seqTrace ctx ctx.context_state l := by
    unfold Cons.seqLog Cons.instrument
    rw [Cons.write_i64_seq_instrumentFrom]
    rfl
  refine ⟨?_, ?_, ?_, rfl⟩
  · rw [h, Cons.seqTrace_length]
  · rw [h, Cons.seqTrace_map_slot]
  · rw [h, Cons.seqTrace_map_payload]

/-- C6: on a Consumption Context backed by the in-memory recording sink, the
call sequence write_i64 42; write_nl; write_ascii "abc" records exactly the
three operations, in that order, with those payloads. -/
theorem c6_recording_round_trip :
    (Cons.write_ascii (Cons.write_nl (Cons.write_i64 recordingContext 42))
        "abc".toList).context_state
      = [SinkEvent.i64 42, SinkEvent.nl, SinkEvent.ascii "abc".toList] :=
  rfl

/-- C7: the harness entry point __generate is observationally equal to the
user-supplied generate: it hands the context through unchanged and adds no
other effect, for every user function and every context handle. -/
theorem c7_generate_entry_call_through {σ : Type}
    (generate : Cons.context_t σ → Cons.context_t σ) (context : Cons.context_t σ) :
    Cons.__generate generate context = generate context :=
  rfl

/-- C8: the forwarding layer performs no validation: even for a malformed
range with lower > higher, gen_i64 and rand_i64 forward (lower, higher)
unchanged to the backend slot (the instrumented log and the recorded call
show the exact argument tuples) and return the slot's result, with no error
channel and no branching on the arguments. -/
theorem c8_no_validation_forwarding {σ₁ σ₂ : Type} (gctx : Gen.context_t σ₁)
    (cctx : Cons.context_t σ₂) (lower higher : Int) (h : higher < lower) :
    (Gen.gen_i64 gctx lower higher).1
      = (gctx.gen_i64 gctx.context_state lower higher).1 ∧
    ((Gen.gen_i64 (Gen.instrument gctx) lower higher).2).context_state.2
      = [⟨SlotName.gen_i64, [Arg.state gctx.context_state, Arg.int lower, Arg.int higher]⟩] ∧
    Cons.rand_i64 cctx lower higher = cctx.rand_i64 lower higher ∧
    Cons.rand_i64_calls cctx lower higher
      = [⟨SlotName.rand_i64, [Arg.int lower, Arg.int higher]⟩] :=
  ⟨rfl, rfl, rfl, rfl⟩

/-- Witness for C8 at the malformed range (lower, higher) = (10, 5). -/
theorem c8_no_validation_witness :
    ((5 : Int) < 10) ∧
    ((Gen.gen_i64 genLowerFixture 10 5).1
       = (genLowerFixture.gen_i64 genLowerFixture.context_state 10 5).1 ∧
     ((Gen.gen_i64 (Gen.instrument genLowerFixture) 10 5).2).context_state.2
       = [⟨SlotName.gen_i64,
           [Arg.state genLowerFixture.context_state, Arg.int 10, Arg.int 5]⟩] ∧
     Cons.rand_i64 (consFixture 0) 10 5 = (consFixture 0).rand_i64 10 5 ∧
     Cons.rand_i64_calls (consFixture 0) 10 5
       = [⟨SlotName.rand_i64, [Arg.int 10, Arg.int 5]⟩]) :=
  ⟨by decide, c8_no_validation_forwarding genLowerFixture (consFixture 0) 10 5 (by decide)⟩

/-- C9: two-run noninterference for rand_i64: any two context handles sharing
the same rand_i64 table slot — whatever their context_state values — produce
the same result and invoke the slot with the same argument tuple on identical
(lower, higher) inputs, because the forwarding never passes or consults the
backend state for this primitive. -/
theorem c9_rand_i64_state_noninterference {σ : Type} (ctx₁ ctx₂ : Cons.context_t σ)
    (lower higher : Int) (h : ctx₁.rand_i64 = ctx₂.rand_i64) :
    Cons.rand_i64 ctx₁ lower higher = Cons.rand_i64 ctx₂ lower higher ∧
    Cons.rand_i64_calls ctx₁ lower higher = Cons.rand_i64_calls ctx₂ lower higher := by
  refine ⟨?_, rfl⟩
  unfold Cons.rand_i64
  rw [h]

/-- Witness for C9: two concrete handles with the same rand slot but backend
states 0 and 7 agree on result and recorded call at (5, 10). -/
theorem c9_noninterference_witness :
    (consFixture 0).context_state ≠ (consFixture 7).context_state ∧
    (consFixture 0).rand_i64 = (consFixture 7).rand_i64 ∧
    (Cons.rand_i64 (consFixture 0) 5 10 = Cons.rand_i64 (consFixture 7) 5 10 ∧
     Cons.rand_i64_calls (consFixture 0) 5 10 = Cons.rand_i64_calls (consFixture 7) 5 10) :=
  ⟨by decide, rfl, c9_rand_i64_state_noninterference (consFixture 0) (consFixture 7) 5 10 rfl⟩

/-- C10: rand_i64_array takes its length as a signed 64-bit integer; under
the precondition 0 ≤ length it never reaches the abort branch in which a
negative length is converted to an enormous size_t allocation (the result is
never none) and it produces exactly length.toNat elements. -/
theorem c10_length_nonnegative_total {σ : Type} (ctx : Cons.context_t σ)
    (length lower higher : Int) (h : 0 ≤ length) :
    Cons.rand_i64_array ctx length lower higher ≠ none ∧
    ((Cons.rand_i64_array ctx length lower higher).getD []).length = length.toNat := by
  unfold Cons.rand_i64_array
  rw [if_neg (not_lt.mpr h)]
  exact ⟨Option.some_ne_none _, by simp⟩

/-- Witness for C10 at length 3 over a concrete context. -/
theorem c10_length_witness :
    ((0 : Int) ≤ 3) ∧
    (Cons.rand_i64_array (consFixture 0) 3 5 10 ≠ none ∧
     ((Cons.rand_i64_array (consFixture 0) 3 5 10).getD []).length = (3 : Int).toNat) :=
  ⟨by decide, c10_length_nonnegative_total (consFixture 0) 3 5 10 (by decide)⟩
